import Mathlib

/-!
Verification of the PopOut-Calc widget (popout-calc.py): docking geometry,
slide animation, calculator buffer operations, clipboard paste and the JSON
configuration store, shallowly embedded as executable Lean definitions.
-/

namespace PopOutCalc

/-- Width in pixels of the permanent bar that remains visible when hidden
(`self.hidden_size = 20` in `CalculatorApp.__init__`). -/
def hidden_size : Int := 20

/-- Fixed animation step used by `slide_in` and `slide_out` (`step = 10`). -/
def step : Int := 10

/-- Geometry values computed by `set_geometry_parameters` that the docking
state machine uses.  For horizontal docking (`right`/`left`) the fields hold
`calc_width`, `total_width`, `full_height`, `x_visible`, `x_hidden`; for
vertical docking (`top`/`bottom`) they hold `calc_height`, `total_height`,
`full_width`, `y_visible`, `y_hidden`. -/
structure Layout where
  calc_extent : Int
  total_extent : Int
  cross_extent : Int
  visibleOff : Int
  hiddenOff : Int
  deriving DecidableEq, Repr

/-- Embedding of `CalculatorApp.set_geometry_parameters`.  `bs` is
`button_size`, `W`/`H` are `screen_width`/`screen_height`.  Python `//` is
floor division; all operands here are nonnegative, where it agrees with
`Int` division.  A side outside the four dock edges sets nothing in the
source; the zero layout stands for that unreachable case. -/
def set_geometry_parameters (side : String) (bs W H : Int) : Layout :=
  let handle_height := bs / 4
  let copy_height := bs / 2
  let display_height := bs
  let buttons_rows : Int := 5
  if side = "right" ∨ side = "left" then
    let calc_width := 4 * bs
    let total_width := calc_width + hidden_size
    let full_height := handle_height + copy_height + display_height + buttons_rows * bs
    if side = "right" then
      { calc_extent := calc_width, total_extent := total_width,
        cross_extent := full_height,
        visibleOff := W - total_width, hiddenOff := W - hidden_size }
    else
      { calc_extent := calc_width, total_extent := total_width,
        cross_extent := full_height,
        visibleOff := hidden_size, hiddenOff := calc_width }
  else if side = "top" ∨ side = "bottom" then
    let calc_height := handle_height + copy_height + display_height + buttons_rows * bs
    let total_height := calc_height + hidden_size
    let full_width := 4 * bs
    if side = "top" then
      { calc_extent := calc_height, total_extent := total_height,
        cross_extent := full_width,
        visibleOff := hidden_size, hiddenOff := calc_height }
    else
      { calc_extent := calc_height, total_extent := total_height,
        cross_extent := full_width,
        visibleOff := H - total_height, hiddenOff := H - hidden_size }
  else
    { calc_extent := 0, total_extent := 0, cross_extent := 0,
      visibleOff := 0, hiddenOff := 0 }

/-- Number of units of a window of size `extent`, placed at `offset` along a
screen axis of length `L`, that lie on-screen. -/
def onScreenExtent (L offset extent : Int) : Int :=
  max 0 (min (offset + extent) L - max offset 0)

/-- One tick of `CalculatorApp.slide_in`: the new `current_offset` given the
dock side and the target `x_visible`/`y_visible`.  A guard that fails leaves
the offset unchanged (the source schedules no further tick then). -/
def slideInStep (side : String) (visible offset : Int) : Int :=
  if side = "right" then
    (if offset > visible then max (offset - step) visible else offset)
  else if side = "left" then
    (if offset < visible then min (offset + step) visible else offset)
  else if side = "top" then
    (if offset < visible then min (offset + step) visible else offset)
  else if side = "bottom" then
    (if offset > visible then max (offset - step) visible else offset)
  else offset

/-- One tick of `CalculatorApp.slide_out`: the new `current_offset` given the
dock side and the target `x_hidden`/`y_hidden`. -/
def slideOutStep (side : String) (hidden offset : Int) : Int :=
  if side = "right" then
    (if offset < hidden then min (offset + step) hidden else offset)
  else if side = "left" then
    (if offset > hidden then max (offset - step) hidden else offset)
  else if side = "top" then
    (if offset > hidden then max (offset - step) hidden else offset)
  else if side = "bottom" then
    (if offset < hidden then min (offset + step) hidden else offset)
  else offset

/-- Token of the arithmetic expression language (`+ - * / ( )` and decimal
numbers) that the calculator buffer is evaluated over. -/
inductive Tok
  | num (n : Int)
  | plus
  | minus
  | mul
  | div
  | lpar
  | rpar
  deriving DecidableEq, Repr

/-- Tokenizer for the expression language: digit runs build a number held in
`cur`; operators, parentheses and blanks flush it; any other character makes
the whole expression malformed. -/
def tokenizeAux : List Char → Option Int → List Tok → Option (List Tok)
  | [], none, acc => some acc.reverse
  | [], some n, acc => some (Tok.num n :: acc).reverse
  | c :: cs, cur, acc =>
    if c.isDigit then
      tokenizeAux cs (some ((cur.getD 0) * 10 + Int.ofNat (c.toNat - 48))) acc
    else
      let acc2 := match cur with
        | some n => Tok.num n :: acc
        | none => acc
      if c == ' ' then tokenizeAux cs none acc2
      else if c == '+' then tokenizeAux cs none (Tok.plus :: acc2)
      else if c == '-' then tokenizeAux cs none (Tok.minus :: acc2)
      else if c == '*' then tokenizeAux cs none (Tok.mul :: acc2)
      else if c == '/' then tokenizeAux cs none (Tok.div :: acc2)
      else if c == '(' then tokenizeAux cs none (Tok.lpar :: acc2)
      else if c == ')' then tokenizeAux cs none (Tok.rpar :: acc2)
      else none

/-- Parsing mode of the recursive-descent parser: a full expression, the
sum/difference loop with its accumulator, a term, the product/quotient loop
with its accumulator, or a factor. -/
inductive PM
  | expr
  | eloop (acc : Int)
  | term
  | tloop (acc : Int)
  | factor
  deriving DecidableEq, Repr

/-- Fuelled recursive-descent parser-evaluator with standard precedence:
`expr := term ((+|-) term)*`, `term := factor ((*|/) factor)*`,
`factor := number | - factor | ( expr )`.  Division by zero fails. -/
def parseP : Nat → PM → List Tok → Option (Int × List Tok)
  | 0, _, _ => none
  | Nat.succ f, PM.expr, ts =>
      (parseP f PM.term ts).bind fun vr => parseP f (PM.eloop vr.1) vr.2
  | Nat.succ f, PM.eloop a, Tok.plus :: ts =>
      (parseP f PM.term ts).bind fun vr => parseP f (PM.eloop (a + vr.1)) vr.2
  | Nat.succ f, PM.eloop a, Tok.minus :: ts =>
      (parseP f PM.term ts).bind fun vr => parseP f (PM.eloop (a - vr.1)) vr.2
  | Nat.succ _, PM.eloop a, ts => some (a, ts)
  | Nat.succ f, PM.term, ts =>
      (parseP f PM.factor ts).bind fun vr => parseP f (PM.tloop vr.1) vr.2
  | Nat.succ f, PM.tloop a, Tok.mul :: ts =>
      (parseP f PM.factor ts).bind fun vr => parseP f (PM.tloop (a * vr.1)) vr.2
  | Nat.succ f, PM.tloop a, Tok.div :: ts =>
      (parseP f PM.factor ts).bind fun vr =>
        if vr.1 = 0 then none else parseP f (PM.tloop (a / vr.1)) vr.2
  | Nat.succ _, PM.tloop a, ts => some (a, ts)
  | Nat.succ _, PM.factor, Tok.num n :: ts => some (n, ts)
  | Nat.succ f, PM.factor, Tok.minus :: ts =>
      (parseP f PM.factor ts).bind fun vr => some (-vr.1, vr.2)
  | Nat.succ f, PM.factor, Tok.lpar :: ts =>
      (parseP f PM.expr ts).bind fun vr =>
        match vr.2 with
        | Tok.rpar :: ts2 => some (vr.1, ts2)
        | _ => none
  | Nat.succ _, PM.factor, _ => none

/-- Modelled from the spec: the host expression evaluator (Python built-in
`eval`, not part of this repository) as the spec describes it — it interprets
the buffer as an arithmetic expression over `+ - * / ( )` and decimal numbers
with standard operator precedence, failing on malformed input or division by
zero; on success the result is rendered as text.  Numbers are modelled as
integers (every claim exercises integer inputs only). -/
def pyEval (s : String) : Option String :=
  match tokenizeAux s.data none [] with
  | none => none
  | some ts =>
    match parseP (3 * ts.length + 3) PM.expr ts with
    | some (v, []) => some (toString v)
    | _ => none

/-- Embedding of `CalculatorApp.on_button_click` restricted to its effect on
`self.expression` (the display always shows the buffer afterwards): `C`/`CE`
clear the buffer, `=` replaces it by the evaluation result or by the literal
marker `"Error"` on failure, and every other button label is appended. -/
def on_button_click (expression char : String) : String :=
  if char = "C" ∨ char = "CE" then ""
  else if char = "=" then
    match pyEval expression with
    | some result => result
    | none => "Error"
  else expression ++ char

/-- Whitespace characters removed by Python `str.strip()` (ASCII range). -/
def isPySpace (c : Char) : Bool :=
  c == ' ' || c == '\t' || c == '\n' || c == '\r' || c == '\x0b' || c == '\x0c'

/-- Python `str.strip()`: remove leading and trailing whitespace. -/
def pyStrip (s : String) : String :=
  String.mk (((s.data.dropWhile isPySpace).reverse.dropWhile isPySpace).reverse)

/-- All characters are decimal digits. -/
def allDigits : List Char → Bool
  | [] => true
  | c :: cs => c.isDigit && allDigits cs

/-- Body of a plain decimal number after an optional sign: a nonempty digit
run, optionally followed by a point and further digits, or a point followed
by a nonempty digit run. -/
def decimalBody (cs : List Char) : Bool :=
  let ds := cs.takeWhile Char.isDigit
  let rest := cs.dropWhile Char.isDigit
  match rest with
  | [] => !ds.isEmpty
  | c :: rest2 => c == '.' && allDigits rest2 && (!ds.isEmpty || !rest2.isEmpty)

/-- Modelled from the spec: acceptance of Python's built-in `float(...)`
conversion (not part of this repository), per the spec's contract that paste
accepts text only if it parses as a plain decimal number: an optional sign
followed by a decimal digit string with at most one decimal point. -/
def pyFloatAccepts (s : String) : Bool :=
  match s.data with
  | [] => false
  | c :: rest =>
    if c == '+' || c == '-' then decimalBody rest else decimalBody (c :: rest)

/-- Embedding of `CalculatorApp.paste_from_clipboard` restricted to its
effect on `self.expression`: the clipboard text is stripped of surrounding
whitespace; if the stripped text converts to a float it is appended to the
buffer, otherwise nothing changes. -/
def paste_from_clipboard (expression clipboard : String) : String :=
  let clip := pyStrip clipboard
  if pyFloatAccepts clip then expression ++ clip else expression

/-- JSON value stored in a config field.  The configuration written by this
program only ever holds numbers, strings and `null`; numbers are modelled as
integers (all sizes and positions are integral). -/
inductive JVal
  | null
  | bool (b : Bool)
  | num (n : Int)
  | str (s : String)
  deriving DecidableEq, Repr

/-- State of the config file as `load_config` finds it: no file, a file whose
open/`json.load`/field access raises (unreadable, malformed, or not a JSON
object — all land in the same `except` branch), or a parsed JSON object. -/
inductive ConfigSource
  | absent
  | malformed
  | record (kvs : List (String × JVal))
  deriving DecidableEq, Repr

/-- The six dynamically-typed attributes `load_config` sets on the app. -/
structure PySettings where
  button_size : JVal
  side : JVal
  current_font : JVal
  theme : JVal
  x_pos : JVal
  y_pos : JVal
  deriving DecidableEq, Repr

/-- The defaults assigned when the file is absent or unreadable. -/
def defaultSettings : PySettings :=
  { button_size := .num 48, side := .str "right", current_font := .str "Arial",
    theme := .str "light", x_pos := .null, y_pos := .null }

/-- Python `dict.get(k, d)`: the stored value when the key is present,
the supplied default otherwise. -/
def dictGet (kvs : List (String × JVal)) (k : String) (d : JVal) : JVal :=
  match kvs.lookup k with
  | some v => v
  | none => d

/-- Embedding of `CalculatorApp.load_config`: defaults when the file is
absent or anything raises; otherwise each field is `config.get(key, default)`
— whatever value is present is taken as-is. -/
def load_config : ConfigSource → PySettings
  | .absent => defaultSettings
  | .malformed => defaultSettings
  | .record kvs =>
    { button_size := dictGet kvs "button_size" (.num 48),
      side := dictGet kvs "side" (.str "right"),
      current_font := dictGet kvs "current_font" (.str "Arial"),
      theme := dictGet kvs "theme" (.str "light"),
      x_pos := dictGet kvs "x_pos" .null,
      y_pos := dictGet kvs "y_pos" .null }

/-- A typed, valid settings record as the spec's data model describes it
(`x_pos`/`y_pos` may be unset). -/
structure SettingsRec where
  button_size : Int
  side : String
  current_font : String
  theme : String
  x_pos : Option Int
  y_pos : Option Int
  deriving DecidableEq, Repr

/-- JSON encoding of an optional integer position (`None` becomes `null`). -/
def optToJ : Option Int → JVal
  | none => .null
  | some n => .num n

/-- Embedding of `CalculatorApp.save_config`: `json.dump` writes the six
settings as a flat JSON object with these exact keys. -/
def save_config (s : SettingsRec) : ConfigSource :=
  .record [("button_size", .num s.button_size), ("side", .str s.side),
           ("current_font", .str s.current_font), ("theme", .str s.theme),
           ("x_pos", optToJ s.x_pos), ("y_pos", optToJ s.y_pos)]

/-- C1: the claim states that for every cell size and every dock edge the
hidden-state window position leaves exactly `hidden_size` (20) units of the
widget on-screen.  The code violates this for left docking: with
`button_size = 48` on a 1920×1080 screen, `x_hidden = calc_width = 192`, so
the hidden window spans `[192, 404]` and all 212 units of the widget stay
on-screen, not 20.  (The hover test for the hidden left dock probes the strip
`[0, hidden_size]`, which the widget never occupies — the code contradicts
itself, and the spec states the evident intent.) -/
theorem c1_left_dock_hidden_fully_on_screen :
    (set_geometry_parameters "left" 48 1920 1080).hiddenOff = 192 ∧
    (set_geometry_parameters "left" 48 1920 1080).total_extent = 212 ∧
    onScreenExtent 1920 (set_geometry_parameters "left" 48 1920 1080).hiddenOff
      (set_geometry_parameters "left" 48 1920 1080).total_extent = 212 ∧
    (212 : Int) ≠ hidden_size := by
  decide

/-- C2: every animation tick of `slide_in`/`slide_out` changes the offset by
at most the fixed step of 10, moves monotonically toward the target without
overshooting it, and moves by exactly 10 whenever the target is at least 10
away; since both step functions are so bounded at every live offset,
redirecting from expansion to retraction (or back) mid-animation continues
from the current offset with no jump larger than the step. -/
theorem c2_slide_step_bounded (s : String)
    (hs : s = "right" ∨ s = "left" ∨ s = "top" ∨ s = "bottom")
    (v h o : Int) :
    (slideInStep s v o - o).natAbs ≤ 10 ∧
    (slideOutStep s h o - o).natAbs ≤ 10 ∧
    ((s = "right" ∨ s = "bottom") → v ≤ o →
      v ≤ slideInStep s v o ∧ slideInStep s v o ≤ o ∧
      (v + 10 ≤ o → slideInStep s v o = o - 10)) ∧
    ((s = "left" ∨ s = "top") → o ≤ v →
      slideInStep s v o ≤ v ∧ o ≤ slideInStep s v o ∧
      (o ≤ v - 10 → slideInStep s v o = o + 10)) ∧
    ((s = "right" ∨ s = "bottom") → o ≤ h →
      slideOutStep s h o ≤ h ∧ o ≤ slideOutStep s h o ∧
      (o ≤ h - 10 → slideOutStep s h o = o + 10)) ∧
    ((s = "left" ∨ s = "top") → h ≤ o →
      h ≤ slideOutStep s h o ∧ slideOutStep s h o ≤ o ∧
      (h + 10 ≤ o → slideOutStep s h o = o - 10)) := by
  rcases hs with rfl | rfl | rfl | rfl <;>
    simp [slideInStep, slideOutStep, step] <;>
    split_ifs <;>
    omega

/-- Witness for C2 at `s = "right"`, `v = 0`, `h = 100`, `o = 50`. -/
theorem c2_slide_step_bounded_witness :
    (slideInStep "right" 0 50 - 50).natAbs ≤ 10 ∧
    slideInStep "right" 0 50 = 50 - 10 :=
  ⟨(c2_slide_step_bounded "right" (Or.inl rfl) 0 100 50).1,
   ((c2_slide_step_bounded "right" (Or.inl rfl) 0 100 50).2.2.1
      (Or.inl rfl) (by decide)).2.2 (by decide)⟩

/-- C3: the claim states that from `Hidden` the expansion animation reaches
`visibleOff` exactly, after ⌈|hiddenOff − visibleOff|/step⌉ ticks.  For right
docking this holds (with `button_size = 48`, `W = 1920`: 192 units, exactly
20 ticks and not 19), but for left docking `slide_in`'s guard
`current_offset < x_visible` is false at `x_hidden = 192 > 20 = x_visible`,
so the offset never moves: after ⌈172/10⌉ = 18 ticks — indeed after any
number of ticks — it is still 192, never 20. -/
theorem c3_left_dock_expansion_stuck :
    (set_geometry_parameters "left" 48 1920 1080).hiddenOff = 192 ∧
    (set_geometry_parameters "left" 48 1920 1080).visibleOff = 20 ∧
    (∀ n : Nat, (fun o => slideInStep "left" 20 o)^[n] 192 = 192) ∧
    ((fun o => slideInStep "right" 1708 o)^[20] 1900 = 1708 ∧
      (fun o => slideInStep "right" 1708 o)^[19] 1900 ≠ 1708) ∧
    (192 : Int) ≠ 20 := by
  refine ⟨by decide, by decide, ?_, ⟨by decide, by decide⟩, by decide⟩
  intro n
  exact Function.iterate_fixed (by decide) n

/-- C9: each tick of `slide_in`/`slide_out` keeps the offset inside the
closed interval spanned by `hiddenOff` and `visibleOff` whenever it starts
inside it — the `max`/`min` clamping never lets the offset leave the
interval between the two endpoints. -/
theorem c9_slide_step_interval (s : String)
    (hs : s = "right" ∨ s = "left" ∨ s = "top" ∨ s = "bottom")
    (hid vis o : Int) (h1 : min hid vis ≤ o) (h2 : o ≤ max hid vis) :
    min hid vis ≤ slideInStep s vis o ∧ slideInStep s vis o ≤ max hid vis ∧
    min hid vis ≤ slideOutStep s hid o ∧ slideOutStep s hid o ≤ max hid vis := by
  rcases hs with rfl | rfl | rfl | rfl <;>
    simp [slideInStep, slideOutStep, step] <;>
    split_ifs <;>
    omega

/-- Witness for C9 at `s = "right"`, `hid = 100`, `vis = 0`, `o = 50`. -/
theorem c9_slide_step_interval_witness :
    min (100 : Int) 0 ≤ slideInStep "right" 0 50 ∧
    slideInStep "right" 0 50 ≤ max (100 : Int) 0 ∧
    min (100 : Int) 0 ≤ slideOutStep "right" 100 50 ∧
    slideOutStep "right" 100 50 ≤ max (100 : Int) 0 :=
  c9_slide_step_interval "right" (Or.inl rfl) 100 0 50 (by decide) (by decide)

/-- C4: evaluating the buffer `"2+3*4"` yields `"14"` (standard precedence),
evaluating `"5/0"` yields the literal marker `"Error"`, and pressing `C`
then `7` from any buffer leaves the display showing `"7"`. -/
theorem c4_calculator_examples (e : String) :
    on_button_click "2+3*4" "=" = "14" ∧
    on_button_click "5/0" "=" = "Error" ∧
    on_button_click (on_button_click e "C") "7" = "7" :=
  ⟨rfl, rfl, rfl⟩

/-- C5 counterexample: the claim states that after an evaluation failure a
subsequent digit entry starts a fresh expression; in the code pressing `7`
after the failed evaluation of `"5/0"` extends the marker to `"Error7"`
instead of starting fresh with `"7"`. -/
theorem c5_error_then_digit_appends :
    on_button_click (on_button_click "5/0" "=") "7" = "Error7" ∧
    ("Error7" : String) ≠ "7" := by
  decide

/-- C5 amended: after any evaluation failure the buffer is reset to the
literal marker `"Error"`, and a subsequent digit (or any non-clear,
non-evaluate button) is appended to that marker — the buffer becomes
`"Error" ++ d`, it does not start fresh. -/
theorem c5_error_marker_then_digit (e d : String) (he : pyEval e = none)
    (hd : ¬(d = "C" ∨ d = "CE") ∧ d ≠ "=") :
    on_button_click e "=" = "Error" ∧
    on_button_click (on_button_click e "=") d = "Error" ++ d := by
  have h1 : on_button_click e "=" = "Error" := by
    simp [on_button_click, he]
  refine ⟨h1, ?_⟩
  rw [h1]
  simp [on_button_click, hd.1, hd.2]

/-- Witness for C5 amended at `e = "5/0"`, `d = "7"`. -/
theorem c5_error_marker_then_digit_witness :
    on_button_click "5/0" "=" = "Error" ∧
    on_button_click (on_button_click "5/0" "=") "7" = "Error" ++ "7" :=
  c5_error_marker_then_digit "5/0" "7" (by decide) (by decide)

/-- C6: paste appends the (stripped) clipboard text to the buffer exactly
when that text converts to a float — `"3.14"` is appended; for any text that
does not (such as `"abc"`) the buffer is left completely unchanged. -/
theorem c6_paste_numeric_filter (b c : String) :
    paste_from_clipboard b "3.14" = b ++ "3.14" ∧
    paste_from_clipboard b "abc" = b ∧
    (pyFloatAccepts (pyStrip c) = true →
      paste_from_clipboard b c = b ++ pyStrip c) ∧
    (pyFloatAccepts (pyStrip c) = false →
      paste_from_clipboard b c = b) := by
  refine ⟨rfl, rfl, ?_, ?_⟩ <;>
    · intro h
      simp [paste_from_clipboard, h]

/-- Witness for C6 at an accepted and a rejected clipboard text. -/
theorem c6_paste_numeric_filter_witness :
    paste_from_clipboard "1+" "7.5" = "1+" ++ pyStrip "7.5" ∧
    paste_from_clipboard "1+" "x2" = "1+" :=
  ⟨(c6_paste_numeric_filter "1+" "7.5").2.2.1 (by decide),
   (c6_paste_numeric_filter "1+" "x2").2.2.2 (by decide)⟩

/-- C10: paste strips surrounding whitespace before both the numeric check
and the append: pasting `" 3.14 "` appends exactly `"3.14"`. -/
theorem c10_paste_strips_whitespace (b : String) :
    pyStrip " 3.14 " = "3.14" ∧
    paste_from_clipboard b " 3.14 " = b ++ "3.14" :=
  ⟨rfl, rfl⟩

/-- C7 counterexample: the claim states that an invalid stored field falls
back to its default while other fields are retained; in the code a present
field is never validated — loading the record `{"side": "up"}` keeps the
invalid value `"up"` instead of falling back to the default `"right"`. -/
theorem c7_invalid_field_retained :
    (load_config (ConfigSource.record [("side", JVal.str "up")])).side =
      JVal.str "up" ∧
    JVal.str "up" ≠ JVal.str "right" := by
  decide

/-- C7 amended: `load_config` never fails — a missing, unreadable or
malformed file yields all defaults — and in a parsed record each missing
field falls back to its default while each present field is retained as-is
(valid or not), the other fields being unaffected. -/
theorem c7_load_config_defaulting :
    load_config ConfigSource.absent = defaultSettings ∧
    load_config ConfigSource.malformed = defaultSettings ∧
    ∀ kvs : List (String × JVal),
      ((kvs.lookup "button_size" = none →
          (load_config (ConfigSource.record kvs)).button_size = JVal.num 48) ∧
        (∀ v, kvs.lookup "button_size" = some v →
          (load_config (ConfigSource.record kvs)).button_size = v)) ∧
      ((kvs.lookup "side" = none →
          (load_config (ConfigSource.record kvs)).side = JVal.str "right") ∧
        (∀ v, kvs.lookup "side" = some v →
          (load_config (ConfigSource.record kvs)).side = v)) ∧
      ((kvs.lookup "current_font" = none →
          (load_config (ConfigSource.record kvs)).current_font =
            JVal.str "Arial") ∧
        (∀ v, kvs.lookup "current_font" = some v →
          (load_config (ConfigSource.record kvs)).current_font = v)) ∧
      ((kvs.lookup "theme" = none →
          (load_config (ConfigSource.record kvs)).theme = JVal.str "light") ∧
        (∀ v, kvs.lookup "theme" = some v →
          (load_config (ConfigSource.record kvs)).theme = v)) ∧
      ((kvs.lookup "x_pos" = none →
          (load_config (ConfigSource.record kvs)).x_pos = JVal.null) ∧
        (∀ v, kvs.lookup "x_pos" = some v →
          (load_config (ConfigSource.record kvs)).x_pos = v)) ∧
      ((kvs.lookup "y_pos" = none →
          (load_config (ConfigSource.record kvs)).y_pos = JVal.null) ∧
        (∀ v, kvs.lookup "y_pos" = some v →
          (load_config (ConfigSource.record kvs)).y_pos = v)) := by
  refine ⟨rfl, rfl, fun kvs => ?_⟩
  refine ⟨⟨?_, ?_⟩, ⟨?_, ?_⟩, ⟨?_, ?_⟩, ⟨?_, ?_⟩, ⟨?_, ?_⟩, ⟨?_, ?_⟩⟩ <;>
    · intros
      simp [load_config, dictGet, *]

/-- Witness for C7 amended at the record `{"theme": "dark"}`: the present
field is retained, an absent field gets its default. -/
theorem c7_load_config_defaulting_witness :
    (load_config (ConfigSource.record [("theme", JVal.str "dark")])).theme =
      JVal.str "dark" ∧
    (load_config (ConfigSource.record [("theme", JVal.str "dark")])).button_size =
      JVal.num 48 :=
  ⟨(c7_load_config_defaulting.2.2 [("theme", JVal.str "dark")]).2.2.2.1.2
      (JVal.str "dark") (by decide),
   (c7_load_config_defaulting.2.2 [("theme", JVal.str "dark")]).1.1 (by decide)⟩

/-- C8: saving any typed settings record and loading it back yields exactly
that record (each loaded attribute is the JSON encoding of the saved one),
and loading with no config file present yields the documented defaults. -/
theorem c8_config_round_trip (s : SettingsRec) :
    load_config (save_config s) =
      { button_size := JVal.num s.button_size, side := JVal.str s.side,
        current_font := JVal.str s.current_font, theme := JVal.str s.theme,
        x_pos := optToJ s.x_pos, y_pos := optToJ s.y_pos } ∧
    load_config ConfigSource.absent = defaultSettings := by
  refine ⟨?_, rfl⟩
  simp [save_config, load_config, dictGet, List.lookup]

end PopOutCalc
